import Mathlib

/-!
Verification development for the kakeibo (household ledger) Excel-to-CSV
conversion scripts.  The five Python scripts share one pipeline: a column
resolver reads a sheet's header row, a record extractor validates each data
row and builds expense records, a classifier assigns a category (keyword
heuristic or structured category columns), and an exporter sorts each group
by date and serializes it.

Python cell values (as produced by openpyxl with `values_only=True`) are
modelled by the inductive type `Cell`: `None`, `str`, `int`, and `float`
(floats are modelled as rationals; IEEE rounding, `inf` and `nan` are out of
scope).  Python strings are Lean `String`s, but every string operation the
scripts use (`lower`, `strip`, `in`, `replace`, `isdigit`, `split`,
comparison) is defined here explicitly over `String.data` so that all
definitions compute by kernel reduction.  The ASCII-only `lower`/`isdigit`
models are faithful on all text the scripts actually handle.
-/

/-- Lowercase one character; models Python `str.lower` on ASCII letters
(non-ASCII characters, in particular all Japanese text, are unchanged by
both). -/
def lowerChar (c : Char) : Char :=
  if 65 ≤ c.toNat ∧ c.toNat ≤ 90 then Char.ofNat (c.toNat + 32) else c

/-- Model of Python `str.lower`. -/
def strLower (s : String) : String :=
  String.mk (s.data.map lowerChar)

/-- ASCII whitespace, as stripped by Python `str.strip`. -/
def isSpaceChar (c : Char) : Bool :=
  c == ' ' || c == '\t' || c == '\n' || c == '\r' || c == '\x0b' || c == '\x0c'

/-- Model of Python `str.strip`. -/
def stripStr (s : String) : String :=
  String.mk (((s.data.dropWhile isSpaceChar).reverse.dropWhile isSpaceChar).reverse)

/-- Helper for `containsSub`: does `w` occur as a contiguous run in `t`. -/
def subAux (w : List Char) : List Char → Bool
  | [] => w.isEmpty
  | c :: ts => w.isPrefixOf (c :: ts) || subAux w ts

/-- Model of the Python substring test `word in text`. -/
def containsSub (word text : String) : Bool :=
  subAux word.data text.data

/-- Decimal digit test on a character (Python `str.isdigit` is broader on
exotic Unicode digits, which do not occur in this data). -/
def digitChar (c : Char) : Bool :=
  48 ≤ c.toNat && c.toNat ≤ 57

/-- Value of a decimal digit string, as computed by Python `int(...)` on a
string of digits. -/
def digitsToNat (l : List Char) : Nat :=
  l.foldl (fun n c => n * 10 + (c.toNat - 48)) 0

/-- Model of Python `str.isdigit`: non-empty and all decimal digits. -/
def isdigitStr (s : String) : Bool :=
  !s.data.isEmpty && s.data.all digitChar

/-- Model of Python `str.replace(pat, '')` for a single-character pattern:
removes every occurrence of the character. -/
def removeChar (c : Char) (s : String) : String :=
  String.mk (s.data.filter (fun d => d ≠ c))

/-- Helper for `replaceStr`, on character lists. -/
def replaceAux (pat rep : List Char) : List Char → List Char
  | [] => []
  | c :: ts =>
    if _h : pat ≠ [] ∧ pat.isPrefixOf (c :: ts) = true then
      rep ++ replaceAux pat rep ((c :: ts).drop pat.length)
    else
      c :: replaceAux pat rep ts
termination_by l => l.length
decreasing_by
  · simp only [List.length_drop, List.length_cons]
    have hp : 0 < pat.length := List.length_pos.mpr _h.1
    omega
  · simp

/-- Model of Python `str.replace` (all non-overlapping occurrences,
left to right). -/
def replaceStr (s pat rep : String) : String :=
  String.mk (replaceAux pat.data rep.data s.data)

/-- Model of Python string splitting `s.split(sep)` for a one-character
separator. -/
def splitOnChar (sep : Char) (l : List Char) : List (List Char) :=
  l.foldr
    (fun c acc =>
      if c = sep then [] :: acc
      else
        match acc with
        | [] => [[c]]
        | g :: gs => (c :: g) :: gs)
    [[]]

/-- Model of Python string `<=` (lexicographic by code point). -/
def leChars : List Char → List Char → Bool
  | [], _ => true
  | _ :: _, [] => false
  | a :: as, b :: bs => if a = b then leChars as bs else decide (a < b)

/-- String comparison used to model Python `list.sort(key=...)` on date
strings. -/
def leStr (a b : String) : Bool :=
  leChars a.data b.data

/-- Zero-padded decimal rendering, models Python `f"{n:0wd}"` for
non-negative `n`. -/
def padNum (w n : Nat) : String :=
  String.mk (List.replicate (w - (toString n).length) '0') ++ toString n

/-- One spreadsheet cell value as seen through openpyxl `values_only`
iteration. -/
inductive Cell where
  | none
  | str (s : String)
  | int (n : Int)
  | float (q : Rat)
deriving DecidableEq

/-- Python truthiness of a cell value (`if value:`). -/
def Cell.truthy : Cell → Bool
  | Cell.none => false
  | Cell.str s => !s.data.isEmpty
  | Cell.int n => n ≠ 0
  | Cell.float q => q ≠ 0

/-- Model of `isinstance(x, (int, float))`. -/
def Cell.isNumber : Cell → Bool
  | Cell.int _ => true
  | Cell.float _ => true
  | _ => false

/-- Model of the comparison `x > 0` on a numeric cell (False for
non-numbers, which the scripts never compare). -/
def Cell.gtZero : Cell → Bool
  | Cell.int n => decide (0 < n)
  | Cell.float q => decide (0 < q)
  | _ => false

/-- Truncation toward zero of a rational, models Python `int(float)`. -/
def ratTrunc (q : Rat) : Int :=
  q.num.tdiv q.den

/-- Model of Python `int(x)` on a numeric cell. -/
def Cell.toIntTrunc : Cell → Int
  | Cell.int n => n
  | Cell.float q => ratTrunc q
  | _ => 0

/-- Abstraction of the decimal rendering Python would produce for a float;
only its value on integral rationals is ever relevant here. -/
def floatRepr (q : Rat) : String :=
  if q.den = 1 then toString q.num ++ (".0") else toString q.num ++ ("/") ++ toString q.den

/-- Model of Python `str(value)` on a cell. -/
def pyStr : Cell → String
  | Cell.none => ("None")
  | Cell.str s => s
  | Cell.int n => toString n
  | Cell.float q => floatRepr q

/-- Model of the idiom `str(x) if x else ''` used for place/description. -/
def pyStrOrEmpty (c : Cell) : String :=
  if c.truthy then pyStr c else ("")

/-- Model of `row[i] if len(row) > i else None`, and also of the guarded
indexing `len(row) > i and row[i] ...` (a missing cell behaves like `None`). -/
def getCell (row : List Cell) (i : Nat) : Cell :=
  (row.get? i).getD Cell.none

/-- One worksheet: its name and its rows in spreadsheet order (list position
`k` is spreadsheet row `k+1`; the first row is the header). -/
structure Sheet where
  name : String
  rows : List (List Cell)

/-- Model of `re.match(r'(\d+)\.(\d+)', sheet_name)` followed by `int` on
both groups: a maximal leading digit run, a literal dot, then a digit run;
anything may follow. -/
def matchSheetName (s : String) : Option (Nat × Nat) :=
  let d1 := s.data.takeWhile digitChar
  let rest := s.data.dropWhile digitChar
  if d1.isEmpty then Option.none
  else
    match rest with
    | [] => Option.none
    | c :: rest2 =>
      if c = '.' then
        let d2 := rest2.takeWhile digitChar
        if d2.isEmpty then Option.none
        else Option.some (digitsToNat d1, digitsToNat d2)
      else Option.none

/-- Gregorian leap-year rule, as used by `datetime`. -/
def isLeap (y : Nat) : Bool :=
  y % 4 == 0 && (y % 100 != 0 || y % 400 == 0)

/-- Number of days of month `m` of year `y`. -/
def daysInMonth (y m : Nat) : Nat :=
  if m = 2 then (if isLeap y then 29 else 28)
  else if m = 4 ∨ m = 6 ∨ m = 9 ∨ m = 11 then 30
  else 31

/-- Validity of the `datetime.strptime(f"{y:04d}-{m:02d}-{d:02d}", '%Y-%m-%d')`
check performed by every `parse_date`: `%Y` consumes exactly four digits (so
five-digit years fail), the month must be 1..12, and the day must exist in
that month. -/
def validDate (y m d : Nat) : Bool :=
  1 ≤ y && y ≤ 9999 && 1 ≤ m && m ≤ 12 && 1 ≤ d && d ≤ daysInMonth y m

/-- The ISO date string `f"{year:04d}-{month:02d}-{day:02d}"`. -/
def mkDateStr (y m d : Nat) : String :=
  padNum 4 y ++ ("-") ++ padNum 2 m ++ ("-") ++ padNum 2 d

/-- Model of `int(date.split('-')[0])`. -/
def yearKey (date : String) : Nat :=
  digitsToNat ((splitOnChar '-' date.data).headD [])

/-- One extracted expense record (keyword-classifier modes). -/
structure Expense where
  date : String
  category : String
  amount : Int
  place : String
  description : String
deriving DecidableEq

/-- One extracted expense record of the subcategory-capable mode. -/
structure ExpenseSub where
  date : String
  category : String
  subcategory : String
  amount : Int
  place : String
  description : String
deriving DecidableEq

/-- Resolved mandatory column indices (used after the `all(k in columns ...)`
check has passed). -/
structure ColMap where
  day : Nat
  place : Nat
  amount : Nat
  description : Nat
deriving DecidableEq

/-- One registered category column of the structured modes: header cell
index and the fixed category label found there. -/
structure CatCol where
  index : Nat
  name : String
deriving DecidableEq

namespace Final

/-!
Embedding of `convert_excel_final.py` (header-driven column detection,
keyword classifier, grouping by year).
-/

/-- Keyword group 1 of `categorize_item`: loans and insurance. -/
def kwFixed1 : List String :=
  ["ローン", "保険", "loan", "insurance", "メットライフ",
   "アクサ", "車両保険", "aig", "ネオファースト"]

/-- Keyword group 2 of `categorize_item`: communications (also mapped to the
fixed-cost label). -/
def kwFixed2 : List String :=
  ["ソネット", "モバイル", "携帯", "スマホ", "wifi",
   "インターネット", "ネット", "通信", "ドコモ", "netflix"]

/-- Keyword group 3 of `categorize_item`: utilities. -/
def kwUtility : List String :=
  ["電気", "水道", "ガス", "光熱", "でんき", "みず",
   "東京電力", "東京ガス", "下水", "水道局"]

/-- Keyword group 4 of `categorize_item`: gym and leisure. -/
def kwLeisure : List String :=
  ["ジム", "アッティーボ", "映画", "レジャー", "娯楽"]

/-- Keyword group 5 of `categorize_item`: transportation. -/
def kwTransport : List String :=
  ["ガソリン", "電車", "バス", "交通", "えき", "タクシー",
   "suica", "パスモ", "etc"]

/-- Keyword group 6 of `categorize_item`: medical. -/
def kwMedical : List String :=
  ["病院", "薬", "医療", "クリニック", "びょういん",
   "ドラッグ", "薬局"]

/-- Embedding of `categorize_item` of `convert_excel_final.py`: lowercased
`place description` blob, six keyword groups tried in order, default
`食費` (food). -/
def categorize_item (place description : String) : String :=
  let text := strLower (place ++ (" ") ++ description)
  if kwFixed1.any (fun w => containsSub w text) then ("固定費")
  else if kwFixed2.any (fun w => containsSub w text) then ("固定費")
  else if kwUtility.any (fun w => containsSub w text) then ("光熱費")
  else if kwLeisure.any (fun w => containsSub w text) then ("娯楽費")
  else if kwTransport.any (fun w => containsSub w text) then ("交通費")
  else if kwMedical.any (fun w => containsSub w text) then ("医療費")
  else ("食費")

/-- Embedding of `parse_date` of `convert_excel_final.py`: sheet name
`YY.MM`, numeric day truncated to an integer in `[1, 31]`, then the
`strptime` calendar-validity check on the formatted string. -/
def parse_date (sheetName : String) (day : Cell) : Option String :=
  match matchSheetName sheetName with
  | Option.none => Option.none
  | Option.some (yearShort, month) =>
    if ¬ day.isNumber then Option.none
    else if day.toIntTrunc < 1 ∨ day.toIntTrunc > 31 then Option.none
    else if validDate (2000 + yearShort) month day.toIntTrunc.toNat then
      Option.some (mkDateStr (2000 + yearShort) month day.toIntTrunc.toNat)
    else Option.none

/-- Column indices found in a header row; a `none` field was not detected. -/
structure FoundCols where
  day : Option Nat
  place : Option Nat
  amount : Option Nat
  description : Option Nat
deriving DecidableEq

/-- One step of the `find_columns` header scan of `convert_excel_final.py`
on the indexed cell `iv`. -/
def findColsStep (acc : FoundCols) (iv : Nat × Cell) : FoundCols :=
  if ¬ iv.2.truthy then acc
  else
    let cellStr := stripStr (pyStr iv.2)
    if cellStr = ("日") ∨ containsSub ("day") (strLower cellStr) then
      match acc.day with
      | Option.some _ => acc
      | Option.none => { acc with day := Option.some iv.1 }
    else if containsSub ("場所") cellStr ∨ containsSub ("place") (strLower cellStr) then
      { acc with place := Option.some iv.1 }
    else if containsSub ("価格") cellStr ∨ containsSub ("金額") cellStr ∨
        containsSub ("price") (strLower cellStr) then
      { acc with amount := Option.some iv.1 }
    else if containsSub ("商品") cellStr ∨ containsSub ("item") (strLower cellStr) then
      { acc with description := Option.some iv.1 }
    else acc

/-- Embedding of `find_columns` of `convert_excel_final.py`. -/
def find_columns (header : List Cell) : FoundCols :=
  header.enum.foldl findColsStep ⟨Option.none, Option.none, Option.none, Option.none⟩

/-- The `all(k in columns for k in ['day','place','amount','description'])`
check. -/
def mandatoryOk (f : FoundCols) : Bool :=
  f.day.isSome && f.place.isSome && f.amount.isSome && f.description.isSome

/-- Embedding of the per-row body of `extract_expenses` of
`convert_excel_final.py`: amount must be numeric and positive, day numeric,
date valid; the produced pair is the year grouping key and the record. -/
def processRow (c : ColMap) (sheetName : String) (row : List Cell) : Option (Nat × Expense) :=
  if row.isEmpty then Option.none
  else if ¬ ((getCell row c.amount).isNumber && (getCell row c.amount).gtZero) then Option.none
  else if ¬ (getCell row c.day).isNumber then Option.none
  else
    match parse_date sheetName (getCell row c.day) with
    | Option.none => Option.none
    | Option.some date =>
      Option.some (yearKey date,
        { date := date
          category := categorize_item (pyStrOrEmpty (getCell row c.place))
            (pyStrOrEmpty (getCell row c.description))
          amount := (getCell row c.amount).toIntTrunc
          place := pyStrOrEmpty (getCell row c.place)
          description := pyStrOrEmpty (getCell row c.description) })

/-- Embedding of the per-sheet part of `extract_expenses` of
`convert_excel_final.py`: resolve columns from the header (spreadsheet
row 1), reject the sheet if a mandatory column is missing, else process
spreadsheet rows 2 to 1000. -/
def sheetRecords (s : Sheet) : List (Nat × Expense) :=
  let f := find_columns (s.rows.headD [])
  match f.day, f.place, f.amount, f.description with
  | Option.some di, Option.some pi, Option.some ai, Option.some de =>
    ((s.rows.drop 1).take 999).filterMap (processRow ⟨di, pi, ai, de⟩ s.name)
  | _, _, _, _ => []

/-- The `month_sheets` filter: only sheets whose name matches
`\d+\.\d+`. -/
def monthSheets (sheets : List Sheet) : List Sheet :=
  sheets.filter (fun s => (matchSheetName s.name).isSome)

/-- All `(year, record)` pairs appended across the processed sheets, in
extraction order. -/
def allRecords (sheets : List Sheet) : List (Nat × Expense) :=
  (monthSheets sheets).flatMap sheetRecords

/-- Grouping keys in first-insertion order, as a Python `defaultdict`
enumerates them. -/
def keyOrder (recs : List (Nat × Expense)) : List Nat :=
  recs.foldl (fun ks r => if ks.contains r.1 then ks else ks ++ [r.1]) []

/-- The list accumulated under year `y`, in extraction order. -/
def groupRecs (y : Nat) (recs : List (Nat × Expense)) : List Expense :=
  (recs.filter (fun r => r.1 == y)).map (fun r => r.2)

/-- Model of the stable Python `list.sort(key=lambda x: x['date'])`
(insertion sort is stable, as Timsort is). -/
def sortByDate (l : List Expense) : List Expense :=
  l.insertionSort (fun a b => leStr a.date b.date = true)

/-- Embedding of `extract_expenses` of `convert_excel_final.py` at workbook
level: records of the month sheets grouped by year, each group sorted by
date. -/
def extract_expenses (sheets : List Sheet) : List (Nat × List Expense) :=
  (keyOrder (allRecords sheets)).map
    (fun y => (y, sortByDate (groupRecs y (allRecords sheets))))

/-- Embedding of `save_to_csv` of `convert_excel_final.py`: the written rows
(header row, then date, category, amount, place, description per record). -/
def save_to_csv (expenses : List Expense) : List (List String) :=
  [("日付"), ("カテゴリ"), ("金額"), ("場所"), ("商品名・メモ")] ::
    expenses.map (fun e => [e.date, e.category, toString e.amount, e.place, e.description])

end Final

namespace Split

/-!
Embedding of `convert_excel_split.py` (fixed column positions, keyword
classifier, grouping by year).
-/

/-- Keyword group 1 of `categorize_item` of `convert_excel_split.py`. -/
def kwFixed1 : List String :=
  ["ローン", "保険", "loan", "insurance", "メットライフ",
   "アクサ", "車両保険", "aig"]

/-- Keyword group 2 of `categorize_item` of `convert_excel_split.py`. -/
def kwFixed2 : List String :=
  ["ソネット", "モバイル", "携帯", "スマホ", "wifi",
   "インターネット", "ネット", "通信"]

/-- Keyword group 3 of `categorize_item` of `convert_excel_split.py`. -/
def kwUtility : List String :=
  ["電気", "水道", "ガス", "光熱", "でんき", "みず",
   "東京電力", "東京ガス", "下水", "水道局"]

/-- Keyword group 4 of `categorize_item` of `convert_excel_split.py`. -/
def kwLeisure : List String :=
  ["ジム", "アッティーボ", "映画", "レジャー", "娯楽"]

/-- Keyword group 5 of `categorize_item` of `convert_excel_split.py`. -/
def kwTransport : List String :=
  ["ガソリン", "電車", "バス", "交通", "えき", "タクシー",
   "suica", "パスモ"]

/-- Keyword group 6 of `categorize_item` of `convert_excel_split.py`. -/
def kwMedical : List String :=
  ["病院", "薬", "医療", "クリニック", "びょういん",
   "ドラッグ", "薬局"]

/-- Embedding of `categorize_item` of `convert_excel_split.py`. -/
def categorize_item (place description : String) : String :=
  let text := strLower (place ++ (" ") ++ description)
  if kwFixed1.any (fun w => containsSub w text) then ("固定費")
  else if kwFixed2.any (fun w => containsSub w text) then ("固定費")
  else if kwUtility.any (fun w => containsSub w text) then ("光熱費")
  else if kwLeisure.any (fun w => containsSub w text) then ("娯楽費")
  else if kwTransport.any (fun w => containsSub w text) then ("交通費")
  else if kwMedical.any (fun w => containsSub w text) then ("医療費")
  else ("食費")

/-- Embedding of `parse_date` of `convert_excel_split.py`; the script always
calls it with the default `year_offset=0`, passed explicitly here. -/
def parse_date (sheetName : String) (day : Cell) (yearOffset : Nat) : Option String :=
  match matchSheetName sheetName with
  | Option.none => Option.none
  | Option.some (yearShort, month) =>
    if ¬ day.isNumber then Option.none
    else if day.toIntTrunc < 1 ∨ day.toIntTrunc > 31 then Option.none
    else if validDate (2000 + yearShort + yearOffset) month day.toIntTrunc.toNat then
      Option.some (mkDateStr (2000 + yearShort + yearOffset) month day.toIntTrunc.toNat)
    else Option.none

/-- Embedding of the per-row body of `extract_expenses` of
`convert_excel_split.py`: rows shorter than 8 cells are skipped, the fixed
positions are day=3, place=5, amount=6, description=7. -/
def processRow (sheetName : String) (row : List Cell) : Option (Nat × Expense) :=
  if row.isEmpty then Option.none
  else if row.length < 8 then Option.none
  else if ¬ ((getCell row 6).isNumber && (getCell row 6).gtZero) then Option.none
  else if ¬ (getCell row 3).isNumber then Option.none
  else
    match parse_date sheetName (getCell row 3) 0 with
    | Option.none => Option.none
    | Option.some date =>
      Option.some (yearKey date,
        { date := date
          category := categorize_item (pyStrOrEmpty (getCell row 5))
            (pyStrOrEmpty (getCell row 7))
          amount := (getCell row 6).toIntTrunc
          place := pyStrOrEmpty (getCell row 5)
          description := pyStrOrEmpty (getCell row 7) })

/-- Embedding of the per-sheet part of `extract_expenses` of
`convert_excel_split.py`: no header resolution, spreadsheet rows 2 to 1000
are scanned directly. -/
def sheetRecords (s : Sheet) : List (Nat × Expense) :=
  ((s.rows.drop 1).take 999).filterMap (processRow s.name)

end Split

namespace Orig

/-!
Embedding of `convert_excel.py` (fixed column positions, keyword
classifier, single flat output list).  Its `categorize_item` and
`parse_date` are textually identical to the ones of
`convert_excel_split.py`.
-/

/-- Embedding of the per-row body of `extract_expenses` of
`convert_excel.py`: besides the amount check, a record is produced only when
the place cell is a non-empty string (`if place and isinstance(place, str)`). -/
def processRow (sheetName : String) (row : List Cell) : Option Expense :=
  if row.isEmpty ∨ row.length < 8 then Option.none
  else if ¬ ((getCell row 6).isNumber && (getCell row 6).gtZero) then Option.none
  else
    match getCell row 5 with
    | Cell.str ps =>
      if ps.data.isEmpty then Option.none
      else
        match Split.parse_date sheetName (getCell row 3) 0 with
        | Option.none => Option.none
        | Option.some date =>
          Option.some
            { date := date
              category := Split.categorize_item ps (pyStrOrEmpty (getCell row 7))
              amount := (getCell row 6).toIntTrunc
              place := ps
              description := pyStrOrEmpty (getCell row 7) }
    | _ => Option.none

end Orig

/-- The test applied by the structured modes to decide whether a category
column's cell counts as populated: inside the row, not `None`, truthy, and
with non-blank stripped string form (`len(row) > idx and row[idx] is not
None`, then `if value and str(value).strip()`). -/
def catCellHit (row : List Cell) (i : Nat) : Bool :=
  getCell row i ≠ Cell.none && (getCell row i).truthy &&
    stripStr (pyStr (getCell row i)) ≠ ("")

namespace Preserve

/-!
Embedding of `extract_category` of `convert_excel_preserve_categories.py`
(first populated category column wins, default その他).
-/

/-- Embedding of `extract_category` of
`convert_excel_preserve_categories.py`. -/
def extract_category (row : List Cell) : List CatCol → String
  | [] => ("その他")
  | c :: cs => if catCellHit row c.index then c.name else extract_category row cs

end Preserve

namespace Subcat

/-!
Embedding of `convert_excel_with_subcategories.py` (header-driven columns
with structured category and 内訳 subcategory columns, grouping by year).
-/

/-- The fixed list `main_categories` of
`convert_excel_with_subcategories.py`. -/
def mainCategories : List String :=
  ["食品", "日用品", "外食費", "衣類", "家具・家電", "美容",
   "医療費", "交際費", "レジャー", "ガソリン・ETC", "光熱費",
   "通信費", "保険", "車関連【車検・税金・積立】", "税金", "経費", "ローン"]

/-- Columns found in a header row by `find_columns` of
`convert_excel_with_subcategories.py`; `subcategories` models the Python
dict (a later assignment to the same key shadows the earlier one, and
`List.lookup` returns the most recent entry). -/
structure FoundCols where
  day : Option Nat
  place : Option Nat
  amount : Option Nat
  description : Option Nat
  categories : List CatCol
  subcategories : List (String × Nat)
deriving DecidableEq

/-- One step of the `find_columns` header scan of
`convert_excel_with_subcategories.py` on the indexed cell `iv`. -/
def findColsStep (acc : FoundCols) (iv : Nat × Cell) : FoundCols :=
  if ¬ iv.2.truthy then acc
  else
    let cellStr := stripStr (pyStr iv.2)
    if cellStr = ("日") ∨ containsSub ("day") (strLower cellStr) then
      match acc.day with
      | Option.some _ => acc
      | Option.none => { acc with day := Option.some iv.1 }
    else if containsSub ("場所") cellStr ∨ containsSub ("place") (strLower cellStr) then
      { acc with place := Option.some iv.1 }
    else if containsSub ("価格") cellStr ∨ containsSub ("金額") cellStr ∨
        containsSub ("price") (strLower cellStr) then
      { acc with amount := Option.some iv.1 }
    else if containsSub ("商品") cellStr ∨ containsSub ("item") (strLower cellStr) then
      { acc with description := Option.some iv.1 }
    else if mainCategories.contains cellStr then
      { acc with categories := acc.categories ++ [⟨iv.1, cellStr⟩] }
    else if containsSub ("内訳") cellStr then
      { acc with subcategories := (replaceStr cellStr ("内訳") (""), iv.1) :: acc.subcategories }
    else acc

/-- Embedding of `find_columns` of `convert_excel_with_subcategories.py`. -/
def find_columns (header : List Cell) : FoundCols :=
  header.enum.foldl findColsStep ⟨Option.none, Option.none, Option.none, Option.none, [], []⟩

/-- The digit test guarding method 1 of
`extract_category_and_subcategory`:
`cat_column_value.replace('.', '').replace('-', '').isdigit()`. -/
def digitLike1 (s : String) : Bool :=
  isdigitStr (removeChar '-' (removeChar '.' s))

/-- The digit test guarding method 2 of
`extract_category_and_subcategory`:
`sub_str.replace('.', '').replace('-', '').replace(':', '').replace(' ', '').isdigit()`. -/
def digitLike2 (s : String) : Bool :=
  isdigitStr (removeChar ' ' (removeChar ':' (removeChar '-' (removeChar '.' s))))

/-- The first category column of the row with a populated cell, together
with the stripped string form of that cell (the loop with `break` at the top
of `extract_category_and_subcategory`). -/
def findFirstCat (row : List Cell) : List CatCol → Option (String × String)
  | [] => Option.none
  | c :: cs =>
    if catCellHit row c.index then
      Option.some (c.name, stripStr (pyStr (getCell row c.index)))
    else findFirstCat row cs

/-- The test method 2 applies to the 内訳 cell before it overrides the
subcategory: populated and not purely numeric after stripping separators. -/
def subValOk (c : Cell) : Bool :=
  c ≠ Cell.none && c.truthy && stripStr (pyStr c) ≠ ("") &&
    ¬ digitLike2 (stripStr (pyStr c))

/-- Embedding of `extract_category_and_subcategory` of
`convert_excel_with_subcategories.py`: the first populated category column
fixes the main category; the subcategory is the 内訳 cell of that category
when present and non-numeric (method 2), else the category cell's own string
value when non-numeric (method 1), else empty. -/
def extract_category_and_subcategory (row : List Cell) (cats : List CatCol)
    (subs : List (String × Nat)) : String × String :=
  match findFirstCat row cats with
  | Option.none => (("その他"), (""))
  | Option.some (name, catVal) =>
    let sub1 := if ¬ catVal.data.isEmpty ∧ ¬ digitLike1 catVal then catVal else ("")
    if name = ("その他") then (name, sub1)
    else
      match List.lookup name subs with
      | Option.none => (name, sub1)
      | Option.some subIdx =>
        if subValOk (getCell row subIdx) then (name, stripStr (pyStr (getCell row subIdx)))
        else (name, sub1)

/-- Embedding of `parse_date` of `convert_excel_with_subcategories.py`
(returns the date string together with year and month). -/
def parse_date (sheetName : String) (day : Cell) : Option (String × Nat × Nat) :=
  match matchSheetName sheetName with
  | Option.none => Option.none
  | Option.some (yearShort, month) =>
    if ¬ day.isNumber then Option.none
    else if day.toIntTrunc < 1 ∨ day.toIntTrunc > 31 then Option.none
    else if validDate (2000 + yearShort) month day.toIntTrunc.toNat then
      Option.some (mkDateStr (2000 + yearShort) month day.toIntTrunc.toNat, 2000 + yearShort, month)
    else Option.none

/-- Embedding of the per-row body of `extract_expenses` of
`convert_excel_with_subcategories.py`. -/
def processRow (c : ColMap) (cats : List CatCol) (subs : List (String × Nat))
    (sheetName : String) (row : List Cell) : Option (Nat × ExpenseSub) :=
  if row.isEmpty then Option.none
  else if ¬ ((getCell row c.amount).isNumber && (getCell row c.amount).gtZero) then Option.none
  else if ¬ (getCell row c.day).isNumber then Option.none
  else
    match parse_date sheetName (getCell row c.day) with
    | Option.none => Option.none
    | Option.some (date, year, _month) =>
      Option.some (year,
        { date := date
          category := (extract_category_and_subcategory row cats subs).1
          subcategory := (extract_category_and_subcategory row cats subs).2
          amount := (getCell row c.amount).toIntTrunc
          place := pyStrOrEmpty (getCell row c.place)
          description := pyStrOrEmpty (getCell row c.description) })

/-- The mandatory-columns check of `convert_excel_with_subcategories.py`. -/
def mandatoryOk (f : FoundCols) : Bool :=
  f.day.isSome && f.place.isSome && f.amount.isSome && f.description.isSome

/-- Embedding of the per-sheet part of `extract_expenses` of
`convert_excel_with_subcategories.py`. -/
def sheetRecords (s : Sheet) : List (Nat × ExpenseSub) :=
  let f := find_columns (s.rows.headD [])
  match f.day, f.place, f.amount, f.description with
  | Option.some di, Option.some pi, Option.some ai, Option.some de =>
    ((s.rows.drop 1).take 999).filterMap
      (processRow ⟨di, pi, ai, de⟩ f.categories f.subcategories s.name)
  | _, _, _, _ => []

/-- All `(year, record)` pairs across the processed month sheets of
`convert_excel_with_subcategories.py`, in extraction order. -/
def allRecords (sheets : List Sheet) : List (Nat × ExpenseSub) :=
  (sheets.filter (fun s => (matchSheetName s.name).isSome)).flatMap sheetRecords

end Subcat

/-- Specification-side form of the keyword classifier: an ordered priority
list of (keyword group, label) pairs, the first group containing a matching
substring decides, and the default is 食費 (food). -/
def prioClassify (text : String) : List (List String × String) → String
  | [] => ("食費")
  | g :: gs => if g.1.any (fun w => containsSub w text) then g.2 else prioClassify text gs

/-- The six keyword groups of `convert_excel_final.py` in their fixed
priority order, with their labels. -/
def Final.kwGroups : List (List String × String) :=
  [(Final.kwFixed1, ("固定費")), (Final.kwFixed2, ("固定費")),
   (Final.kwUtility, ("光熱費")), (Final.kwLeisure, ("娯楽費")),
   (Final.kwTransport, ("交通費")), (Final.kwMedical, ("医療費"))]

/-- Date order on expense records, the sort key of the exporters. -/
def dateLe (a b : Expense) : Prop :=
  leStr a.date b.date = true

/-!
Theorems.  Shared helper lemmas come first, then one theorem per claim
(with a witness theorem where the claim's theorem carries hypotheses).
-/

/-- Helper: a successful `Final.parse_date` forces a `YY.MM` sheet name, a
numeric day whose truncation lies in `[1, 31]`, calendar validity of the
combined date, and fixes the returned string. -/
theorem Final.parse_date_some {n : String} {day : Cell} {s : String}
    (h : Final.parse_date n day = Option.some s) :
    ∃ yy mm, matchSheetName n = Option.some (yy, mm) ∧
      day.isNumber = true ∧ 1 ≤ day.toIntTrunc ∧ day.toIntTrunc ≤ 31 ∧
      validDate (2000 + yy) mm day.toIntTrunc.toNat = true ∧
      s = mkDateStr (2000 + yy) mm day.toIntTrunc.toNat := by
  unfold Final.parse_date at h
  split at h
  · exact absurd h (by simp)
  case h_2 yy mm heq =>
    split at h
    · exact absurd h (by simp)
    case isFalse hnum =>
      split at h
      · exact absurd h (by simp)
      case isFalse hrange =>
        split at h
        case isTrue hvalid =>
          refine ⟨yy, mm, heq, ?_, ?_, ?_, hvalid, (Option.some.inj h).symm⟩
          · exact not_not.mp hnum
          · omega
          · omega
        · exact absurd h (by simp)

/-- Helper: `Final.parse_date` rejects whenever the sheet name parses but
the combined date is not calendrically valid. -/
theorem Final.parse_date_none_of_invalid {n : String} {day : Cell} {yy mm : Nat}
    (heq : matchSheetName n = Option.some (yy, mm))
    (hbad : validDate (2000 + yy) mm day.toIntTrunc.toNat = false) :
    Final.parse_date n day = Option.none := by
  unfold Final.parse_date
  split
  · rfl
  case h_2 ys ms heq2 =>
    rw [heq] at heq2
    injection heq2 with hpair
    injection hpair with h1 h2
    subst h1
    subst h2
    split
    · rfl
    · split
      · rfl
      · split
        case isTrue hvalid => rw [hbad] at hvalid; exact absurd hvalid (by simp)
        · rfl

/-- Helper: anatomy of a successful `Final.processRow`: the amount cell
passed the numeric-and-positive check, the day cell is numeric, the date
parsed, and the produced pair is fixed. -/
theorem Final.processRowFinal_spec {c : ColMap} {n : String} {row : List Cell}
    {y : Nat} {e : Expense}
    (h : Final.processRow c n row = Option.some (y, e)) :
    ((getCell row c.amount).isNumber && (getCell row c.amount).gtZero) = true ∧
    (getCell row c.day).isNumber = true ∧
    ∃ date, Final.parse_date n (getCell row c.day) = Option.some date ∧
      y = yearKey date ∧
      e = { date := date
            category := Final.categorize_item (pyStrOrEmpty (getCell row c.place))
              (pyStrOrEmpty (getCell row c.description))
            amount := (getCell row c.amount).toIntTrunc
            place := pyStrOrEmpty (getCell row c.place)
            description := pyStrOrEmpty (getCell row c.description) } := by
  unfold Final.processRow at h
  split at h
  · exact absurd h (by simp)
  · split at h
    · exact absurd h (by simp)
    case isFalse hamt =>
      split at h
      · exact absurd h (by simp)
      case isFalse hday =>
        split at h
        · exact absurd h (by simp)
        case h_2 date heq =>
          injection h with hpair
          injection hpair with h1 h2
          exact ⟨not_not.mp hamt, not_not.mp hday, date, heq, h1.symm, h2.symm⟩

/-- Helper: anatomy of a successful `Split.processRow`. -/
theorem Split.processRowSplit_spec {n : String} {row : List Cell}
    {y : Nat} {e : Expense}
    (h : Split.processRow n row = Option.some (y, e)) :
    ((getCell row 6).isNumber && (getCell row 6).gtZero) = true ∧
    e.amount = (getCell row 6).toIntTrunc := by
  unfold Split.processRow at h
  split at h
  · exact absurd h (by simp)
  · split at h
    · exact absurd h (by simp)
    · split at h
      · exact absurd h (by simp)
      case isFalse hamt =>
        split at h
        · exact absurd h (by simp)
        · split at h
          · exact absurd h (by simp)
          case h_2 date heq =>
            injection h with hpair
            injection hpair with h1 h2
            exact ⟨not_not.mp hamt, by rw [← h2]⟩

/-- Helper: anatomy of a successful `Subcat.processRow` (amount part). -/
theorem Subcat.processRowSubcat_spec {c : ColMap} {cats : List CatCol}
    {subs : List (String × Nat)} {n : String} {row : List Cell}
    {y : Nat} {e : ExpenseSub}
    (h : Subcat.processRow c cats subs n row = Option.some (y, e)) :
    ((getCell row c.amount).isNumber && (getCell row c.amount).gtZero) = true ∧
    e.amount = (getCell row c.amount).toIntTrunc := by
  unfold Subcat.processRow at h
  split at h
  · exact absurd h (by simp)
  · split at h
    · exact absurd h (by simp)
    case isFalse hamt =>
      split at h
      · exact absurd h (by simp)
      · split at h
        · exact absurd h (by simp)
        case h_2 date year month heq =>
          injection h with hpair
          injection hpair with h1 h2
          exact ⟨not_not.mp hamt, by rw [← h2]⟩

/-- Helper: anatomy of a successful `Orig.processRow` (amount part). -/
theorem Orig.processRowOrig_spec {n : String} {row : List Cell} {e : Expense}
    (h : Orig.processRow n row = Option.some e) :
    ((getCell row 6).isNumber && (getCell row 6).gtZero) = true ∧
    e.amount = (getCell row 6).toIntTrunc := by
  unfold Orig.processRow at h
  split at h
  · exact absurd h (by simp)
  · split at h
    · exact absurd h (by simp)
    case isFalse hamt =>
      split at h
      case h_1 ps hps =>
        split at h
        · exact absurd h (by simp)
        · split at h
          · exact absurd h (by simp)
          case h_2 date heq =>
            injection h with h1
            exact ⟨not_not.mp hamt, by rw [← h1]⟩
      · exact absurd h (by simp)

/-- Helper: truncation toward zero of a positive rational is non-negative. -/
theorem ratTrunc_nonneg {q : Rat} (h : 0 < q) : 0 ≤ ratTrunc q := by
  unfold ratTrunc
  exact Int.tdiv_nonneg (le_of_lt (Rat.num_pos.mpr h)) (Int.natCast_nonneg q.den)

/-- Helper: consequences of the amount check on a cell: positivity of the
raw value, non-negativity of the truncation, strict positivity when the cell
is an integer. -/
theorem cellAmountFacts {a : Cell} (h : (a.isNumber && a.gtZero) = true) :
    a.gtZero = true ∧ 0 ≤ a.toIntTrunc ∧ (∀ m : Int, a = Cell.int m → 0 < a.toIntTrunc) := by
  cases a with
  | none => simp [Cell.isNumber] at h
  | str s => simp [Cell.isNumber] at h
  | int n =>
    simp only [Cell.gtZero, Cell.isNumber, Bool.true_and] at h
    have hn : 0 < n := of_decide_eq_true h
    refine ⟨h, le_of_lt hn, ?_⟩
    intro m _
    exact hn
  | float q =>
    simp only [Cell.gtZero, Cell.isNumber, Bool.true_and] at h
    have hq : 0 < q := of_decide_eq_true h
    refine ⟨h, ratTrunc_nonneg hq, ?_⟩
    intro m hm
    exact absurd hm (by simp)

/-- Claim C1 (counterexample): it is not true that every record produced by
`convert_excel_final.py` stores a strictly positive amount: the row with
amount `0.5` (raw value positive, so the check passes) stores the truncated
amount `0`. -/
theorem C1_counterexample :
    ¬ (∀ (c : ColMap) (n : String) (row : List Cell) (y : Nat) (e : Expense),
        Final.processRow c n row = Option.some (y, e) → 0 < e.amount) := by
  intro hclaim
  have h := hclaim ⟨0, 1, 2, 3⟩ ("24.06")
      [Cell.int 15, Cell.none, Cell.float (mkRat 1 2), Cell.none] 2024
      { date := ("2024-06-15"), category := ("食費"), amount := 0,
        place := (""), description := ("") } (by decide)
  exact absurd h (by decide)

/-- Claim C1 (amended): in every extraction mode, the raw amount cell of a
produced record is strictly positive before truncation; the stored truncated
amount is therefore non-negative, and it is strictly positive whenever the
raw amount cell holds an integer. -/
theorem C1_amended_amounts :
    (∀ c n row y e, Final.processRow c n row = Option.some (y, e) →
       (getCell row c.amount).gtZero = true ∧ 0 ≤ e.amount ∧
       (∀ m : Int, getCell row c.amount = Cell.int m → 0 < e.amount)) ∧
    (∀ n row y e, Split.processRow n row = Option.some (y, e) →
       (getCell row 6).gtZero = true ∧ 0 ≤ e.amount ∧
       (∀ m : Int, getCell row 6 = Cell.int m → 0 < e.amount)) ∧
    (∀ c cats subs n row y e, Subcat.processRow c cats subs n row = Option.some (y, e) →
       (getCell row c.amount).gtZero = true ∧ 0 ≤ e.amount ∧
       (∀ m : Int, getCell row c.amount = Cell.int m → 0 < e.amount)) ∧
    (∀ n row e, Orig.processRow n row = Option.some e →
       (getCell row 6).gtZero = true ∧ 0 ≤ e.amount ∧
       (∀ m : Int, getCell row 6 = Cell.int m → 0 < e.amount)) := by
  refine ⟨?_, ?_, ?_, ?_⟩
  · intro c n row y e h
    obtain ⟨hamt, _, date, _, _, he⟩ := Final.processRowFinal_spec h
    obtain ⟨h1, h2, h3⟩ := cellAmountFacts hamt
    subst he
    exact ⟨h1, h2, h3⟩
  · intro n row y e h
    obtain ⟨hamt, he⟩ := Split.processRowSplit_spec h
    obtain ⟨h1, h2, h3⟩ := cellAmountFacts hamt
    rw [he]
    exact ⟨h1, h2, h3⟩
  · intro c cats subs n row y e h
    obtain ⟨hamt, he⟩ := Subcat.processRowSubcat_spec h
    obtain ⟨h1, h2, h3⟩ := cellAmountFacts hamt
    rw [he]
    exact ⟨h1, h2, h3⟩
  · intro n row e h
    obtain ⟨hamt, he⟩ := Orig.processRowOrig_spec h
    obtain ⟨h1, h2, h3⟩ := cellAmountFacts hamt
    rw [he]
    exact ⟨h1, h2, h3⟩

/-- Witness for `C1_amended_amounts` at a concrete accepted row of each of
the four extraction modes. -/
theorem C1_amended_amounts_witness :
    ((getCell [Cell.int 15, Cell.none, Cell.int 100, Cell.none] 2).gtZero = true) ∧
    ((getCell [Cell.none, Cell.none, Cell.none, Cell.int 4, Cell.none, Cell.str ("スーパー"),
        Cell.int 800, Cell.str ("パン")] 6).gtZero = true) :=
  ⟨(C1_amended_amounts.1 ⟨0, 1, 2, 3⟩ ("24.06")
      [Cell.int 15, Cell.none, Cell.int 100, Cell.none] 2024
      { date := ("2024-06-15"), category := ("食費"), amount := 100,
        place := (""), description := ("") } (by decide)).1,
   (C1_amended_amounts.2.1 ("24.06")
      [Cell.none, Cell.none, Cell.none, Cell.int 4, Cell.none, Cell.str ("スーパー"),
        Cell.int 800, Cell.str ("パン")] 2024
      { date := ("2024-06-04"), category := ("食費"), amount := 800,
        place := ("スーパー"), description := ("パン") } (by decide)).1⟩

/-- Claim C2: the positivity check is applied to the raw amount before
truncation: every produced record passed `amount > 0` on the raw cell value,
a row with amount `-500` or `0` is skipped, and a row with amount `0.5` is
accepted with stored amount `0` (truncated, not rounded). -/
theorem C2_positivity_before_truncation :
    (∀ c n row y e, Final.processRow c n row = Option.some (y, e) →
        (getCell row c.amount).gtZero = true) ∧
    Final.processRow ⟨0, 1, 2, 3⟩ ("24.06")
        [Cell.int 15, Cell.none, Cell.int (-500), Cell.none] = Option.none ∧
    Final.processRow ⟨0, 1, 2, 3⟩ ("24.06")
        [Cell.int 15, Cell.none, Cell.int 0, Cell.none] = Option.none ∧
    Final.processRow ⟨0, 1, 2, 3⟩ ("24.06")
        [Cell.int 15, Cell.none, Cell.float (mkRat 1 2), Cell.none] =
      Option.some (2024,
        { date := ("2024-06-15"), category := ("食費"), amount := 0,
          place := (""), description := ("") }) := by
  refine ⟨?_, by decide, by decide, by decide⟩
  intro c n row y e h
  exact (cellAmountFacts (Final.processRowFinal_spec h).1).1

/-- Witness for `C2_positivity_before_truncation` at a concrete accepted
row. -/
theorem C2_positivity_witness :
    (getCell [Cell.int 15, Cell.none, Cell.float (mkRat 1 2), Cell.none] 2).gtZero = true :=
  C2_positivity_before_truncation.1 ⟨0, 1, 2, 3⟩ ("24.06")
    [Cell.int 15, Cell.none, Cell.float (mkRat 1 2), Cell.none] 2024
    { date := ("2024-06-15"), category := ("食費"), amount := 0,
      place := (""), description := ("") } (by decide)

/-- Claim C10: a row whose amount cell holds a string, even a numeric-
looking one, never produces a record: the `isinstance(amount, (int, float))`
check rejects strings, it does not parse them. -/
theorem C10_string_amount_rejected :
    (∀ c n row s, getCell row c.amount = Cell.str s →
        Final.processRow c n row = Option.none) ∧
    (∀ n row s, getCell row 6 = Cell.str s → Orig.processRow n row = Option.none) := by
  constructor
  · intro c n row s hs
    cases hp : Final.processRow c n row with
    | none => rfl
    | some ye =>
      obtain ⟨y, e⟩ := ye
      have hamt := (Final.processRowFinal_spec hp).1
      rw [hs] at hamt
      exact absurd hamt (by simp [Cell.isNumber])
  · intro n row s hs
    cases hp : Orig.processRow n row with
    | none => rfl
    | some e =>
      have hamt := (Orig.processRowOrig_spec hp).1
      rw [hs] at hamt
      exact absurd hamt (by simp [Cell.isNumber])

/-- Witness for `C10_string_amount_rejected` at rows whose amount cell is
the string "1200". -/
theorem C10_string_amount_witness :
    Final.processRow ⟨0, 1, 2, 3⟩ ("24.06")
        [Cell.int 15, Cell.none, Cell.str ("1200"), Cell.none] = Option.none ∧
    Orig.processRow ("24.06")
        [Cell.none, Cell.none, Cell.none, Cell.int 4, Cell.none, Cell.str ("スーパー"),
          Cell.str ("1200"), Cell.str ("パン")] = Option.none :=
  ⟨C10_string_amount_rejected.1 ⟨0, 1, 2, 3⟩ ("24.06")
      [Cell.int 15, Cell.none, Cell.str ("1200"), Cell.none] ("1200") (by decide),
   C10_string_amount_rejected.2 ("24.06")
      [Cell.none, Cell.none, Cell.none, Cell.int 4, Cell.none, Cell.str ("スーパー"),
        Cell.str ("1200"), Cell.str ("パン")] ("1200") (by decide)⟩

/-- Helper: no day of month 13 passes the calendar validity check. -/
theorem validDate_month13 (y d : Nat) : validDate y 13 d = false := by
  unfold validDate
  simp

/-- Helper: `Final.parse_date` on the sheet name "23.13" rejects every day
value. -/
theorem Final.parse_date_month13 (day : Cell) :
    Final.parse_date ("23.13") day = Option.none :=
  @Final.parse_date_none_of_invalid ("23.13") day 23 13 (by decide) (validDate_month13 _ _)

/-- Claim C3: a record is produced only when the sheet's `(2000 + YY, MM)`
combined with the numeric day truncated into `[1, 31]` is a calendrically
valid date (and the record's date is exactly that date); a sheet name whose
month is invalid makes `parse_date` reject, and in particular on sheet
"23.13" every day value and every row is skipped. -/
theorem C3_date_validation :
    (∀ c n row y e, Final.processRow c n row = Option.some (y, e) →
       ∃ yy mm, matchSheetName n = Option.some (yy, mm) ∧
         (getCell row c.day).isNumber = true ∧
         1 ≤ (getCell row c.day).toIntTrunc ∧ (getCell row c.day).toIntTrunc ≤ 31 ∧
         validDate (2000 + yy) mm (getCell row c.day).toIntTrunc.toNat = true ∧
         e.date = mkDateStr (2000 + yy) mm (getCell row c.day).toIntTrunc.toNat) ∧
    (∀ n day yy mm, matchSheetName n = Option.some (yy, mm) →
       validDate (2000 + yy) mm day.toIntTrunc.toNat = false →
       Final.parse_date n day = Option.none) ∧
    (∀ day, Final.parse_date ("23.13") day = Option.none) ∧
    (∀ c row, Final.processRow c ("23.13") row = Option.none) := by
  refine ⟨?_, ?_, ?_, ?_⟩
  · intro c n row y e h
    obtain ⟨_, _, date, hdate, _, he⟩ := Final.processRowFinal_spec h
    obtain ⟨yy, mm, h1, h2, h3, h4, h5, h6⟩ := Final.parse_date_some hdate
    subst he
    exact ⟨yy, mm, h1, h2, h3, h4, h5, h6⟩
  · intro n day yy mm h1 h2
    exact Final.parse_date_none_of_invalid h1 h2
  · exact Final.parse_date_month13
  · intro c row
    cases hp : Final.processRow c ("23.13") row with
    | none => rfl
    | some ye =>
      obtain ⟨y, e⟩ := ye
      obtain ⟨_, _, date, hdate, _, _⟩ := Final.processRowFinal_spec hp
      rw [Final.parse_date_month13] at hdate
      exact absurd hdate (by simp)

/-- Witness for `C3_date_validation`: day 30 of February 2024 is rejected,
and a concrete accepted row of sheet "24.06" carries the validated date. -/
theorem C3_date_validation_witness :
    Final.parse_date ("24.02") (Cell.int 30) = Option.none ∧
    (∃ yy mm, matchSheetName ("24.06") = Option.some (yy, mm) ∧
      (Cell.int 15).isNumber = true ∧
      1 ≤ (Cell.int 15).toIntTrunc ∧ (Cell.int 15).toIntTrunc ≤ 31 ∧
      validDate (2000 + yy) mm (Cell.int 15).toIntTrunc.toNat = true ∧
      ("2024-06-15") = mkDateStr (2000 + yy) mm (Cell.int 15).toIntTrunc.toNat) :=
  ⟨C3_date_validation.2.1 ("24.02") (Cell.int 30) 24 2 (by decide) (by decide),
   C3_date_validation.1 ⟨0, 1, 2, 3⟩ ("24.06")
     [Cell.int 15, Cell.none, Cell.int 100, Cell.none] 2024
     { date := ("2024-06-15"), category := ("食費"), amount := 100,
       place := (""), description := ("") } (by decide)⟩

/-- Claim C9: every extractor examines only spreadsheet rows 2 to 1000 of a
sheet (row 1 being the header): the records of a sheet are unchanged when
the sheet is cut off after spreadsheet row 1000, so a data row beyond row
1000 never produces a record. -/
theorem C9_rows_2_to_1000 (n : String) (rows : List (List Cell)) :
    Final.sheetRecords ⟨n, rows⟩ = Final.sheetRecords ⟨n, rows.take 1000⟩ ∧
    Split.sheetRecords ⟨n, rows⟩ = Split.sheetRecords ⟨n, rows.take 1000⟩ ∧
    Subcat.sheetRecords ⟨n, rows⟩ = Subcat.sheetRecords ⟨n, rows.take 1000⟩ := by
  have hhead : (rows.take 1000).headD ([] : List Cell) = rows.headD [] := by
    cases rows <;> rfl
  have hdrop : ((rows.take 1000).drop 1).take 999 = (rows.drop 1).take 999 := by
    rw [List.drop_take, List.take_take]
    norm_num
  refine ⟨?_, ?_, ?_⟩
  · unfold Final.sheetRecords
    dsimp only
    rw [hhead, hdrop]
  · unfold Split.sheetRecords
    dsimp only
    rw [hdrop]
  · unfold Subcat.sheetRecords
    dsimp only
    rw [hhead, hdrop]

/-- Helper: a sheet whose header lacks a mandatory column yields no records
in `convert_excel_final.py`. -/
theorem Final.sheetRecordsFinal_empty {s : Sheet}
    (h : Final.mandatoryOk (Final.find_columns (s.rows.headD [])) = false) :
    Final.sheetRecords s = [] := by
  unfold Final.sheetRecords
  unfold Final.mandatoryOk at h
  dsimp only
  split
  next di pi ai de hd hp ha hde =>
    rw [hd, hp, ha, hde] at h
    simp at h
  next => rfl

/-- Helper: a sheet whose header lacks a mandatory column yields no records
in `convert_excel_with_subcategories.py`. -/
theorem Subcat.sheetRecordsSubcat_empty {s : Sheet}
    (h : Subcat.mandatoryOk (Subcat.find_columns (s.rows.headD [])) = false) :
    Subcat.sheetRecords s = [] := by
  unfold Subcat.sheetRecords
  unfold Subcat.mandatoryOk at h
  dsimp only
  split
  next di pi ai de hd hp ha hde =>
    rw [hd, hp, ha, hde] at h
    simp at h
  next => rfl

/-- Claim C4: a sheet whose resolved header lacks any of the mandatory
fields day, place, amount, description contributes zero records, and the
whole run over the other sheets is exactly as if the bad sheet were absent
(processing continues, and the failure is not fatal). -/
theorem C4_missing_columns_skip_sheet :
    (∀ s : Sheet, Final.mandatoryOk (Final.find_columns (s.rows.headD [])) = false →
       Final.sheetRecords s = []) ∧
    (∀ (xs ys : List Sheet) (s : Sheet),
       Final.mandatoryOk (Final.find_columns (s.rows.headD [])) = false →
       Final.allRecords (xs ++ s :: ys) = Final.allRecords (xs ++ ys)) ∧
    (∀ s : Sheet, Subcat.mandatoryOk (Subcat.find_columns (s.rows.headD [])) = false →
       Subcat.sheetRecords s = []) ∧
    (∀ (xs ys : List Sheet) (s : Sheet),
       Subcat.mandatoryOk (Subcat.find_columns (s.rows.headD [])) = false →
       Subcat.allRecords (xs ++ s :: ys) = Subcat.allRecords (xs ++ ys)) := by
  refine ⟨fun s h => Final.sheetRecordsFinal_empty h, ?_,
    fun s h => Subcat.sheetRecordsSubcat_empty h, ?_⟩
  · intro xs ys s h
    have he := Final.sheetRecordsFinal_empty h
    unfold Final.allRecords Final.monthSheets
    rw [List.filter_append, List.filter_append, List.filter_cons]
    by_cases hm : (matchSheetName s.name).isSome
    · simp [hm, List.flatMap_append, he]
    · simp [hm, List.flatMap_append]
  · intro xs ys s h
    have he := Subcat.sheetRecordsSubcat_empty h
    unfold Subcat.allRecords
    rw [List.filter_append, List.filter_append, List.filter_cons]
    by_cases hm : (matchSheetName s.name).isSome
    · simp [hm, List.flatMap_append, he]
    · simp [hm, List.flatMap_append]

/-- Witness for `C4_missing_columns_skip_sheet`: a sheet whose header lacks
the amount column contributes nothing, and a run over it together with a
good sheet equals the run over the good sheet alone. -/
theorem C4_missing_columns_witness :
    Final.sheetRecords ⟨("24.07"), [[Cell.str ("日"), Cell.str ("場所"), Cell.str ("商品")],
        [Cell.int 3, Cell.none, Cell.int 500]]⟩ = [] ∧
    Final.allRecords
        [⟨("24.06"), [[Cell.str ("日"), Cell.str ("場所"), Cell.str ("価格"), Cell.str ("商品")],
            [Cell.int 2, Cell.none, Cell.int 100, Cell.none]]⟩,
         ⟨("24.07"), [[Cell.str ("日"), Cell.str ("場所"), Cell.str ("商品")],
            [Cell.int 3, Cell.none, Cell.int 500]]⟩] =
      Final.allRecords
        [⟨("24.06"), [[Cell.str ("日"), Cell.str ("場所"), Cell.str ("価格"), Cell.str ("商品")],
            [Cell.int 2, Cell.none, Cell.int 100, Cell.none]]⟩] :=
  ⟨C4_missing_columns_skip_sheet.1
      ⟨("24.07"), [[Cell.str ("日"), Cell.str ("場所"), Cell.str ("商品")],
        [Cell.int 3, Cell.none, Cell.int 500]]⟩ (by decide),
   C4_missing_columns_skip_sheet.2.1
      [⟨("24.06"), [[Cell.str ("日"), Cell.str ("場所"), Cell.str ("価格"), Cell.str ("商品")],
          [Cell.int 2, Cell.none, Cell.int 100, Cell.none]]⟩] []
      ⟨("24.07"), [[Cell.str ("日"), Cell.str ("場所"), Cell.str ("商品")],
        [Cell.int 3, Cell.none, Cell.int 500]]⟩ (by decide)⟩

/-- Claim C5: the keyword classifier of `convert_excel_final.py` is exactly
the priority-list classifier over its six keyword groups in their fixed
order on the lowercased `place description` blob (first matching group wins),
any fixed-cost group 1 match decides 固定費 regardless of later groups (so a
text with both an insurance and a gym keyword is fixed-cost), and when no
group matches the default is 食費. -/
theorem C5_keyword_priority (place description : String) :
    Final.categorize_item place description =
      prioClassify (strLower (place ++ (" ") ++ description)) Final.kwGroups ∧
    (Final.kwFixed1.any
        (fun w => containsSub w (strLower (place ++ (" ") ++ description))) = true →
      Final.categorize_item place description = ("固定費")) ∧
    (Final.kwGroups.all
        (fun g => !(g.1.any (fun w =>
          containsSub w (strLower (place ++ (" ") ++ description))))) = true →
      Final.categorize_item place description = ("食費")) := by
  refine ⟨rfl, ?_, ?_⟩
  · intro h
    simp [Final.categorize_item, h]
  · intro h
    simp only [Final.kwGroups, List.all_cons, List.all_nil, Bool.and_true,
      Bool.and_eq_true, Bool.not_eq_true'] at h
    obtain ⟨h1, h2, h3, h4, h5, h6⟩ := h
    simp [Final.categorize_item, h1, h2, h3, h4, h5, h6]

/-- Witness for `C5_keyword_priority`: the blob 保険 ジム contains both an
insurance and a gym keyword and classifies as 固定費; the blob with no
keyword at all classifies as 食費. -/
theorem C5_keyword_priority_witness :
    (Final.kwFixed1.any
        (fun w => containsSub w (strLower (("保険") ++ (" ") ++ ("ジム")))) = true ∧
      Final.categorize_item ("保険") ("ジム") = ("固定費")) ∧
    (Final.kwGroups.all
        (fun g => !(g.1.any (fun w =>
          containsSub w (strLower (("z") ++ (" ") ++ ("")))))) = true ∧
      Final.categorize_item ("z") ("") = ("食費")) :=
  ⟨⟨by decide, (C5_keyword_priority ("保険") ("ジム")).2.1 (by decide)⟩,
   ⟨by decide, (C5_keyword_priority ("z") ("")).2.2 (by decide)⟩⟩

/-- Helper: the first component of `extract_category_and_subcategory` is the
name delivered by the first populated category column, default その他. -/
theorem Subcat.fst_extract_eq (row : List Cell) (cats : List CatCol)
    (subs : List (String × Nat)) :
    (Subcat.extract_category_and_subcategory row cats subs).1 =
      match Subcat.findFirstCat row cats with
      | Option.none => ("その他")
      | Option.some (n, _) => n := by
  unfold Subcat.extract_category_and_subcategory
  split
  · rfl
  · dsimp only
    split
    · rfl
    · split
      · rfl
      · split
        · rfl
        · rfl

/-- Helper: `Preserve.extract_category` agrees with the main-category loop
of `Subcat.findFirstCat`. -/
theorem Subcat.extract_category_vs_findFirstCat (row : List Cell) (cats : List CatCol) :
    Preserve.extract_category row cats =
      match Subcat.findFirstCat row cats with
      | Option.none => ("その他")
      | Option.some (n, _) => n := by
  induction cats with
  | nil => rfl
  | cons a t ih =>
    by_cases h : catCellHit row a.index
    · simp [Preserve.extract_category, Subcat.findFirstCat, h]
    · simp only [Preserve.extract_category, Subcat.findFirstCat, h, Bool.false_eq_true,
        if_false]
      exact ih

/-- Claim C6: in structured-column mode the category columns are scanned in
resolver order and the first populated cell decides the label, regardless of
later populated columns; with no populated category cell the default is
その他; and the subcategory-capable extractor resolves the same main
category as the category-preserving one. -/
theorem C6_first_populated_category :
    (∀ (row : List Cell) (pre post : List CatCol) (c : CatCol),
       (∀ c2 ∈ pre, catCellHit row c2.index = false) →
       catCellHit row c.index = true →
       Preserve.extract_category row (pre ++ c :: post) = c.name) ∧
    (∀ (row : List Cell) (cats : List CatCol),
       (∀ c2 ∈ cats, catCellHit row c2.index = false) →
       Preserve.extract_category row cats = ("その他")) ∧
    (∀ (row : List Cell) (cats : List CatCol) (subs : List (String × Nat)),
       (Subcat.extract_category_and_subcategory row cats subs).1 =
         Preserve.extract_category row cats) := by
  refine ⟨?_, ?_, ?_⟩
  · intro row pre post c hpre hc
    induction pre with
    | nil => simp [Preserve.extract_category, hc]
    | cons a t ih =>
      have ha := hpre a (by simp)
      simp only [List.cons_append, Preserve.extract_category, ha, Bool.false_eq_true,
        if_false]
      exact ih (fun c2 hc2 => hpre c2 (by simp [hc2]))
  · intro row cats hmiss
    induction cats with
    | nil => rfl
    | cons a t ih =>
      have ha := hmiss a (by simp)
      simp only [Preserve.extract_category, ha, Bool.false_eq_true, if_false]
      exact ih (fun c2 hc2 => hmiss c2 (by simp [hc2]))
  · intro row cats subs
    rw [Subcat.fst_extract_eq, Subcat.extract_category_vs_findFirstCat]

/-- Witness for `C6_first_populated_category`: with category columns 食品
(blank), 日用品 (populated), 衣類 (also populated) the category is 日用品;
with a single zero-valued category cell the default is その他. -/
theorem C6_first_populated_witness :
    Preserve.extract_category [Cell.none, Cell.str ("x"), Cell.str ("y")]
        ([⟨0, ("食品")⟩] ++ ⟨1, ("日用品")⟩ :: [⟨2, ("衣類")⟩]) = ("日用品") ∧
    Preserve.extract_category [Cell.int 0] [⟨0, ("食品")⟩] = ("その他") :=
  ⟨C6_first_populated_category.1 [Cell.none, Cell.str ("x"), Cell.str ("y")]
      [⟨0, ("食品")⟩] [⟨2, ("衣類")⟩] ⟨1, ("日用品")⟩ (by decide) (by decide),
   C6_first_populated_category.2.1 [Cell.int 0] [⟨0, ("食品")⟩] (by decide)⟩

/-- Helper: a non-empty string has non-empty character data. -/
theorem ne_empty_isEmpty_false {v : String} (h : v ≠ ("")) : v.data.isEmpty = false := by
  cases v with
  | mk l =>
    cases l with
    | nil => exact absurd rfl h
    | cons c cs => rfl

/-- Helper: the value delivered by `findFirstCat` is a non-blank stripped
string. -/
theorem Subcat.findFirstCat_val_nonempty {row : List Cell} {cats : List CatCol}
    {name v : String} (h : Subcat.findFirstCat row cats = Option.some (name, v)) :
    v.data.isEmpty = false := by
  induction cats with
  | nil => exact absurd h (by simp [Subcat.findFirstCat])
  | cons a t ih =>
    unfold Subcat.findFirstCat at h
    split at h
    case isTrue hhit =>
      injection h with hpair
      injection hpair with h1 h2
      subst h2
      have h3 : stripStr (pyStr (getCell row a.index)) ≠ ("") := by
        simp only [catCellHit, Bool.and_eq_true, decide_eq_true_eq] at hhit
        exact hhit.2
      exact ne_empty_isEmpty_false h3
    · exact ih h

/-- Claim C7 (counterexample): with no 内訳 column registered for the
resolved category, a category column whose own cell holds the text りんご
still yields the subcategory りんご (the method-1 fallback of
`extract_category_and_subcategory`), not the empty string the claim
requires for that case. -/
theorem C7_counterexample :
    List.lookup ("食品") ([] : List (String × Nat)) = Option.none ∧
    (Subcat.extract_category_and_subcategory [Cell.str ("りんご")]
        [⟨0, ("食品")⟩] []).2 = ("りんご") ∧
    (Subcat.extract_category_and_subcategory [Cell.str ("りんご")]
        [⟨0, ("食品")⟩] []).2 ≠ ("") :=
  ⟨rfl, by decide, by decide⟩

/-- Claim C7 (amended): when a 内訳 column is registered for the resolved
main category (which is not その他) and its cell is populated and not
purely numeric, its stripped value is the subcategory; otherwise the
subcategory falls back to the category column's own stripped cell value
when that is not purely numeric, and is empty when that value is numeric;
with no populated category column the subcategory is empty. -/
theorem C7_amended_subcategory :
    (∀ (row : List Cell) (cats : List CatCol) (subs : List (String × Nat))
        (name v : String) (si : Nat),
       Subcat.findFirstCat row cats = Option.some (name, v) → name ≠ ("その他") →
       List.lookup name subs = Option.some si →
       Subcat.subValOk (getCell row si) = true →
       (Subcat.extract_category_and_subcategory row cats subs).2 =
         stripStr (pyStr (getCell row si))) ∧
    (∀ (row : List Cell) (cats : List CatCol) (subs : List (String × Nat))
        (name v : String),
       Subcat.findFirstCat row cats = Option.some (name, v) →
       (name = ("その他") ∨ List.lookup name subs = Option.none ∨
         (∃ si, List.lookup name subs = Option.some si ∧
           Subcat.subValOk (getCell row si) = false)) →
       (Subcat.extract_category_and_subcategory row cats subs).2 =
         (if Subcat.digitLike1 v then ("") else v)) ∧
    (∀ (row : List Cell) (cats : List CatCol) (subs : List (String × Nat)),
       Subcat.findFirstCat row cats = Option.none →
       (Subcat.extract_category_and_subcategory row cats subs).2 = ("")) := by
  refine ⟨?_, ?_, ?_⟩
  · intro row cats subs name v si hfind hname hlook hok
    unfold Subcat.extract_category_and_subcategory
    rw [hfind]
    dsimp only
    rw [if_neg hname, hlook]
    dsimp only
    rw [if_pos hok]
  · intro row cats subs name v hfind hcase
    have hv : v.data.isEmpty = false := Subcat.findFirstCat_val_nonempty hfind
    unfold Subcat.extract_category_and_subcategory
    rw [hfind]
    dsimp only
    have hsub1 : (if ¬v.data.isEmpty ∧ ¬ Subcat.digitLike1 v then v else ("")) =
        (if Subcat.digitLike1 v then ("") else v) := by
      by_cases hd : Subcat.digitLike1 v = true
      · rw [if_neg (by simp [hd]), if_pos hd]
      · rw [if_pos ⟨by simp [hv], by simp [hd]⟩, if_neg hd]
    rw [hsub1]
    by_cases hname : name = ("その他")
    · rw [if_pos hname]
    · rw [if_neg hname]
      rcases hcase with hc | hc | hc
      · exact absurd hc hname
      · rw [hc]
      · obtain ⟨si, hsi, hok⟩ := hc
        rw [hsi]
        dsimp only
        rw [if_neg (by simp [hok])]
  · intro row cats subs hfind
    unfold Subcat.extract_category_and_subcategory
    rw [hfind]

/-- Witness for `C7_amended_subcategory`: a populated non-numeric 内訳 cell
overrides, a numeric 内訳 cell falls back to the category cell's own value,
and an all-blank category row yields an empty subcategory. -/
theorem C7_amended_subcategory_witness :
    (Subcat.extract_category_and_subcategory [Cell.int 1, Cell.str ("低糖質")]
        [⟨0, ("食品")⟩] [(("食品"), 1)]).2 = stripStr (pyStr (Cell.str ("低糖質"))) ∧
    (Subcat.extract_category_and_subcategory [Cell.str ("りんご"), Cell.str ("12-3")]
        [⟨0, ("食品")⟩] [(("食品"), 1)]).2 =
      (if Subcat.digitLike1 ("りんご") then ("") else ("りんご")) ∧
    (Subcat.extract_category_and_subcategory [Cell.none] [⟨0, ("食品")⟩] []).2 = ("") :=
  ⟨C7_amended_subcategory.1 [Cell.int 1, Cell.str ("低糖質")] [⟨0, ("食品")⟩]
      [(("食品"), 1)] ("食品") ("1") 1 (by decide) (by decide) (by decide) (by decide),
   C7_amended_subcategory.2.1 [Cell.str ("りんご"), Cell.str ("12-3")] [⟨0, ("食品")⟩]
      [(("食品"), 1)] ("食品") ("りんご") (by decide)
      (Or.inr (Or.inr ⟨1, by decide, by decide⟩)),
   C7_amended_subcategory.2.2 [Cell.none] [⟨0, ("食品")⟩] [] (by decide)⟩

/-- Helper: reflexivity of the code-point order on character lists. -/
theorem leChars_refl (l : List Char) : leChars l l = true := by
  induction l with
  | nil => rfl
  | cons a t ih => simp [leChars, ih]

/-- Helper: totality of the code-point order on character lists. -/
theorem leChars_total (a b : List Char) : leChars a b = true ∨ leChars b a = true := by
  induction a generalizing b with
  | nil => left; rfl
  | cons x xs ih =>
    cases b with
    | nil => right; rfl
    | cons y ys =>
      by_cases hxy : x = y
      · subst hxy
        rcases ih ys with h | h
        · left; simp [leChars, h]
        · right; simp [leChars, h]
      · rcases lt_or_gt_of_ne hxy with h | h
        · left; simp [leChars, hxy, h]
        · right; simp [leChars, Ne.symm hxy, h]

/-- Helper: transitivity of the code-point order on character lists. -/
theorem leChars_trans {a b c : List Char} (h1 : leChars a b = true)
    (h2 : leChars b c = true) : leChars a c = true := by
  induction a generalizing b c with
  | nil => rfl
  | cons x xs ih =>
    cases b with
    | nil => simp [leChars] at h1
    | cons y ys =>
      cases c with
      | nil => simp [leChars] at h2
      | cons z zs =>
        simp only [leChars] at h1 h2 ⊢
        by_cases hxy : x = y
        · subst hxy
          rw [if_pos rfl] at h1
          by_cases hxz : x = z
          · subst hxz
            rw [if_pos rfl] at h2 ⊢
            exact ih h1 h2
          · rw [if_neg hxz] at h2 ⊢
            exact h2
        · rw [if_neg hxy] at h1
          have hxy2 : x < y := of_decide_eq_true h1
          by_cases hyz : y = z
          · subst hyz
            rw [if_neg hxy]
            exact h1
          · rw [if_neg hyz] at h2
            have hyz2 : y < z := of_decide_eq_true h2
            have hxz : x < z := lt_trans hxy2 hyz2
            rw [if_neg (ne_of_lt hxz)]
            exact decide_eq_true hxz

/-- Helper: inserting a record into a list keeps, among the records of any
fixed date, the inserted record first and the rest in order (the stability
kernel of the insertion sort). -/
theorem filter_date_orderedInsert (d : String) (a : Expense) (l : List Expense) :
    (List.orderedInsert (fun x y : Expense => leStr x.date y.date = true) a l).filter
        (fun e => e.date == d) =
      if a.date == d then a :: l.filter (fun e => e.date == d)
      else l.filter (fun e => e.date == d) := by
  induction l with
  | nil =>
    simp only [List.orderedInsert, List.filter]
    by_cases ha : (a.date == d) = true <;> simp [ha]
  | cons b t ih =>
    unfold List.orderedInsert
    split
    case isTrue hr =>
      rw [List.filter_cons]
    case isFalse hr =>
      rw [List.filter_cons, ih, List.filter_cons]
      by_cases ha : (a.date == d) = true
      · have hbd : (b.date == d) = false := by
          cases hbe : (b.date == d) with
          | false => rfl
          | true =>
            exfalso
            apply hr
            have hb2 : b.date = d := eq_of_beq hbe
            have ha2 : a.date = d := eq_of_beq ha
            rw [ha2, hb2]
            exact leChars_refl d.data
        simp [ha, hbd]
      · by_cases hb : (b.date == d) = true <;> simp [ha, hb]

/-- Helper: the insertion sort on the date key does not disturb the
relative order of records sharing any fixed date. -/
theorem filter_date_sortByDate (d : String) (l : List Expense) :
    (Final.sortByDate l).filter (fun e => e.date == d) =
      l.filter (fun e => e.date == d) := by
  unfold Final.sortByDate
  induction l with
  | nil => rfl
  | cons a t ih =>
    rw [List.insertionSort, filter_date_orderedInsert, List.filter_cons]
    by_cases ha : (a.date == d) = true <;> simp [ha, ih]

/-- Claim C8: every group handed to the exporter by `extract_expenses` is
sorted by date ascending; the sort is stable (the records of any fixed date
keep their extraction order) and idempotent, so exporting the same input
twice produces identical output. -/
theorem C8_sort_stable_idempotent :
    (∀ (sheets : List Sheet) (y : Nat) (g : List Expense),
       (y, g) ∈ Final.extract_expenses sheets → List.Sorted dateLe g) ∧
    (∀ l : List Expense, List.Sorted dateLe (Final.sortByDate l)) ∧
    (∀ (l : List Expense) (d : String),
       (Final.sortByDate l).filter (fun e => e.date == d) =
         l.filter (fun e => e.date == d)) ∧
    (∀ l : List Expense, Final.sortByDate (Final.sortByDate l) = Final.sortByDate l) ∧
    (∀ l : List Expense,
       Final.save_to_csv (Final.sortByDate (Final.sortByDate l)) =
         Final.save_to_csv (Final.sortByDate l)) := by
  haveI : IsTotal Expense (fun x y : Expense => leStr x.date y.date = true) :=
    ⟨fun a b => leChars_total a.date.data b.date.data⟩
  haveI : IsTrans Expense (fun x y : Expense => leStr x.date y.date = true) :=
    ⟨fun a b c h1 h2 => leChars_trans h1 h2⟩
  have hsorted2 : ∀ l : List Expense,
      List.Sorted (fun x y : Expense => leStr x.date y.date = true) (Final.sortByDate l) :=
    fun l => List.sorted_insertionSort _ l
  have hsorted : ∀ l : List Expense, List.Sorted dateLe (Final.sortByDate l) :=
    fun l => hsorted2 l
  have hidem : ∀ l : List Expense,
      Final.sortByDate (Final.sortByDate l) = Final.sortByDate l :=
    fun l => List.Sorted.insertionSort_eq (hsorted2 l)
  refine ⟨?_, hsorted, fun l d => filter_date_sortByDate d l, hidem,
    fun l => by rw [hidem l]⟩
  intro sheets y g hmem
  unfold Final.extract_expenses at hmem
  obtain ⟨y2, hy2, heq⟩ := List.mem_map.mp hmem
  injection heq with h1 h2
  subst h2
  exact hsorted _

/-- Witness for `C8_sort_stable_idempotent`: the one group produced from a
concrete one-sheet workbook is sorted. -/
theorem C8_sort_witness :
    List.Sorted dateLe
      [{ date := ("2024-06-02"), category := ("食費"), amount := 100,
         place := (""), description := ("") }] :=
  C8_sort_stable_idempotent.1
    [⟨("24.06"), [[Cell.str ("日"), Cell.str ("場所"), Cell.str ("価格"), Cell.str ("商品")],
        [Cell.int 2, Cell.none, Cell.int 100, Cell.none]]⟩] 2024
    [{ date := ("2024-06-02"), category := ("食費"), amount := 100,
       place := (""), description := ("") }]
    (by decide)
